import Mathlib

/-!
Shallow embedding of the `stock-open` repository core
(`vn_stock_visualizer.py` and the analysis handler of `web_app.py`).

Prices and volumes are modelled as rationals (`Rat`), dates as integers
(`Int`, a day number); pandas "NaN / undefined" entries are `Option`,
a pandas `DataFrame` is a `Frame` of named columns plus an ordering index,
and Python exceptions are explicit fields of the result records.
-/

namespace StockOpen

/-- ASCII lower-casing of one character, the effect of Python's
`str.lower` on the ASCII column names this program handles. -/
def lowerChar (c : Char) : Char :=
  if 65 ≤ c.toNat ∧ c.toNat ≤ 90 then Char.ofNat (c.toNat + 32) else c

/-- ASCII lower-casing of a string (`str.lower` for ASCII names,
as applied by `self.data.columns.str.lower()`). -/
def lowerName (s : String) : String := ⟨s.data.map lowerChar⟩

/-- ASCII upper-casing of one character, the effect of Python's
`str.upper` on ASCII ticker symbols. -/
def upperChar (c : Char) : Char :=
  if 97 ≤ c.toNat ∧ c.toNat ≤ 122 then Char.ofNat (c.toNat - 32) else c

/-- ASCII upper-casing of a string (`symbol.upper()`). -/
def upperName (s : String) : String := ⟨s.data.map upperChar⟩

/-- A pandas `DataFrame` as this program uses it: a list of named columns
of rational values, plus the ordering index (row labels, as day numbers). -/
structure Frame where
  cols : List (String × List Rat)
  index : List Int
deriving DecidableEq, Repr

/-- Pandas `df.empty` for our frames: no rows. -/
def Frame.isEmpty (f : Frame) : Bool := f.index.isEmpty

/-- Column access `df[name]` (first column of that name, if present). -/
def Frame.getCol (f : Frame) (name : String) : Option (List Rat) :=
  (f.cols.find? (fun c => c.1 = name)).map Prod.snd

/-- The normalization step of `fetch_data` (vn_stock_visualizer.py lines
69-75): lower-case all column names; if a `time` column is present, parse
it (`pd.to_datetime`, abstracted as `parse`) and promote it to the ordering
index (pandas `set_index`, which drops the column). -/
def normalize (parse : Rat → Int) (f : Frame) : Frame :=
  match (f.cols.map (fun c => (lowerName c.1, c.2))).find? (fun c => c.1 = "time") with
  | some timeCol =>
    ⟨(f.cols.map (fun c => (lowerName c.1, c.2))).filter (fun c => ¬ c.1 = "time"),
     timeCol.2.map parse⟩
  | none => ⟨f.cols.map (fun c => (lowerName c.1, c.2)), f.index⟩

/-- The constructed state of `VNStockVisualizer.__init__` (lines 40-54):
the stored symbol and resolved date range. Dates are day numbers; `today`
stands for `datetime.now()` at day granularity. -/
structure VisualizerInit where
  symbol : String
  startDate : Int
  endDate : Int
deriving DecidableEq, Repr

/-- `VNStockVisualizer.__init__`: upper-case the symbol; default the end
date to today; default the start date to 180 days before today
(`datetime.now() - timedelta(days=180)`, line 50 — computed from `now`,
not from the resolved end date). -/
def initVisualizer (symbol : String) (startDate? endDate? : Option Int)
    (today : Int) : VisualizerInit :=
  { symbol := upperName symbol
  , endDate := endDate?.getD today
  , startDate := startDate?.getD (today - 180) }

/-- Pandas `Series.pct_change()` on a column: entry 0 is NaN (`none`);
entry i+1 is `x[i+1] / x[i] - 1`. -/
def pctChange (xs : List Rat) : List (Option Rat) :=
  match xs with
  | [] => []
  | x :: rest => none :: List.zipWith (fun prev cur => some (cur / prev - 1)) (x :: rest) rest

/-- The daily-returns series of `plot_daily_returns` (line 253):
`self.data['close'].pct_change() * 100`, NaN entries staying NaN. -/
def dailyReturnsPct (closes : List Rat) : List (Option Rat) :=
  (pctChange closes).map (Option.map (· * 100))

/-- Pandas `Series.rolling(window=w).mean()` (lines 182 and 224): entry i
is the mean of the `w` entries ending at i when at least `w` entries of
history exist (`min_periods` defaults to the window), otherwise NaN. -/
def rollingMean (w : Nat) (xs : List Rat) : List (Option Rat) :=
  (List.range xs.length).map (fun i =>
    if w ≤ i + 1 then some ((((xs.take (i + 1)).drop (i + 1 - w)).sum) / (w : Rat))
    else none)

/-- `price_change = latest['close'] - first['close']` (line 302). -/
def priceChange (closes : List Rat) : Rat :=
  closes.getLastD 0 - closes.headD 0

/-- `price_change_pct = (price_change / first['close']) * 100` (line 303). -/
def priceChangePct (closes : List Rat) : Rat :=
  priceChange closes / closes.headD 0 * 100

/-- Arithmetic mean of a list, pandas `Series.mean()`. -/
def mean (xs : List Rat) : Rat := xs.sum / (xs.length : Rat)

/-- Sample variance (pandas `Series.var()` with its default `ddof=1`):
sum of squared deviations from the mean, divided by `n - 1`. -/
def sampleVar (xs : List Rat) : Rat :=
  ((xs.map (fun x => (x - mean xs) ^ 2)).sum) / ((xs.length : Rat) - 1)

/-- The day-over-day return fractions that `print_summary` (line 311) and
`analyze_stock` (line 57) feed to `.std()`: `pct_change()` with the NaN
entries skipped, as pandas `Series.std()` skips them. -/
def returnFractions (closes : List Rat) : List Rat :=
  (pctChange closes).filterMap id

/-- The square of the code's volatility (`daily_returns.std() * 100`,
lines 312 / 58). `Series.std()` uses `ddof=1` and yields NaN (`none`)
when fewer than two non-NaN observations exist; squaring avoids the
irrational square root while determining the non-negative std uniquely. -/
def volatilitySq (closes : List Rat) : Option Rat :=
  if 2 ≤ (returnFractions closes).length
  then some (sampleVar (returnFractions closes) * 100 ^ 2)
  else none

/-- Modelled from the spec's words (claim C7 / §4.2): the day-over-day
return-fraction series, `(c[i] - c[i-1]) / c[i-1]` at each position i > 0. -/
def specReturnFractions (closes : List Rat) : List Rat :=
  List.zipWith (fun prev cur => (cur - prev) / prev) closes closes.tail

/-- Modelled from the spec's words (claim C7): the square of the sample
standard deviation of the return-fraction series times 100 (sample, i.e.
`ddof = 1`: `sampleVar` divides by `n - 1`), with no annualization factor. -/
def specVolatilitySq (closes : List Rat) : Rat :=
  sampleVar (specReturnFractions closes) * 100 ^ 2

/-- Outcome of `VNStockVisualizer.fetch_data` (lines 56-96): the boolean
return value, the stored `self.data`, the lines printed, and any exception
propagated out of the method (`raised`). The upstream call
`stock.quote.history(...)` is modelled as `provider`: it either raises
(`Except.error` with the message) or yields `none` / a raw frame. -/
structure FetchResult where
  ok : Bool
  data : Option Frame
  printed : List String
  raised : Option String
deriving DecidableEq, Repr

/-- `VNStockVisualizer.fetch_data`, vnstock-3 path: on an upstream
exception, the `except` block prints the error and returns `False`
(lines 92-96); on a `None` result, prints `No data retrieved` and returns
`False`; otherwise normalizes the frame and returns `True` unless it is
empty. No path re-raises. -/
def fetchData (parse : Rat → Int) (symbol startD endD : String)
    (provider : Except String (Option Frame)) : FetchResult :=
  let header := "Fetching data for " ++ symbol ++ " from " ++ startD ++ " to " ++ endD ++ "..."
  match provider with
  | .error e => ⟨false, none, [header, "Error fetching data: " ++ e], none⟩
  | .ok none => ⟨false, none, [header, "No data retrieved"], none⟩
  | .ok (some raw) =>
    let d := normalize parse raw
    if d.isEmpty then ⟨false, some d, [header, "No data retrieved"], none⟩
    else ⟨true, some d, [header, "Successfully fetched " ++ toString d.index.length ++ " data points"], none⟩

/-- Result of one chart/summary operation: lines printed, the file written
(if any), whether an interactive window was shown, and any exception
propagated. Figure contents are rendering, out of the modelled core. -/
structure PlotResult where
  printed : List String
  wrote : Option String
  shown : Bool
  raised : Option String
deriving DecidableEq, Repr

/-- The early-return result shared by every chart/summary method when
`self.data is None or self.data.empty`. -/
def noDataResult : PlotResult :=
  ⟨["No data available. Please fetch data first."], none, false, none⟩

/-- `plot_candlestick_chart` (lines 98-160): guard on missing/empty data,
then write the HTML file or show the figure. -/
def plotCandlestickChart (data : Option Frame) (savePath : Option String) : PlotResult :=
  match data with
  | none => noDataResult
  | some d =>
    if d.isEmpty then noDataResult
    else
      match savePath with
      | some p => ⟨["Chart saved to " ++ p], some p, false, none⟩
      | none => ⟨[], none, true, none⟩

/-- `plot_price_and_moving_averages` (lines 162-197): guard on
missing/empty data, then save or show the figure (the moving averages it
draws are `rollingMean` applied to the close column). -/
def plotPriceAndMovingAverages (data : Option Frame) (maPeriods : List Nat)
    (savePath : Option String) : PlotResult :=
  match data with
  | none => noDataResult
  | some d =>
    if d.isEmpty then noDataResult
    else
      match savePath with
      | some p => ⟨["Chart saved to " ++ p], some p, false, none⟩
      | none => ⟨[], none, true, none⟩

/-- `plot_volume_analysis` (lines 199-239): guard on missing/empty data,
then save or show the figure (its volume overlay is `rollingMean 20`). -/
def plotVolumeAnalysis (data : Option Frame) (savePath : Option String) : PlotResult :=
  match data with
  | none => noDataResult
  | some d =>
    if d.isEmpty then noDataResult
    else
      match savePath with
      | some p => ⟨["Chart saved to " ++ p], some p, false, none⟩
      | none => ⟨[], none, true, none⟩

/-- `plot_daily_returns` (lines 241-280): guard on missing/empty data,
then save or show the figure (its series is `dailyReturnsPct`). -/
def plotDailyReturns (data : Option Frame) (savePath : Option String) : PlotResult :=
  match data with
  | none => noDataResult
  | some d =>
    if d.isEmpty then noDataResult
    else
      match savePath with
      | some p => ⟨["Chart saved to " ++ p], some p, false, none⟩
      | none => ⟨[], none, true, none⟩

/-- `print_summary` (lines 282-315): guard on missing/empty data, then
print the statistics block (lines abridged to the quantities the spec
names; their values are the definitions above). -/
def printSummary (symbol startD endD : String) (data : Option Frame) : PlotResult :=
  match data with
  | none => noDataResult
  | some d =>
    if d.isEmpty then noDataResult
    else
      let closes := (d.getCol "close").getD []
      ⟨["Summary Statistics for " ++ symbol,
        "Period: " ++ startD ++ " to " ++ endD,
        "Price Change: " ++ toString (priceChange closes) ++ " (" ++ toString (priceChangePct closes) ++ "%)"],
       none, false, none⟩

/-- The summary record `analyze_stock` serializes (web_app.py lines 51-72). -/
structure SummaryStats where
  symbol : String
  latestPrice : Rat
  highestPrice : Rat
  lowestPrice : Rat
  priceChangeVal : Rat
  priceChangePctVal : Rat
  avgVolume : Rat
  maxVolume : Rat
  volatilitySqVal : Option Rat
  dataPoints : Nat
deriving DecidableEq, Repr

/-- The summary computation of `analyze_stock` over a fetched frame,
expressed with the column-level definitions above (volatility kept as its
square, see `volatilitySq`). -/
def summaryOfFrame (symbol : String) (d : Frame) : SummaryStats :=
  let closes := (d.getCol "close").getD []
  let highs := (d.getCol "high").getD []
  let lows := (d.getCol "low").getD []
  let vols := (d.getCol "volume").getD []
  { symbol := symbol
  , latestPrice := closes.getLastD 0
  , highestPrice := (highs.max?).getD 0
  , lowestPrice := (lows.min?).getD 0
  , priceChangeVal := priceChange closes
  , priceChangePctVal := priceChangePct closes
  , avgVolume := mean vols
  , maxVolume := (vols.max?).getD 0
  , volatilitySqVal := volatilitySq closes
  , dataPoints := d.index.length }

/-- The HTTP-level outcome of `analyze_stock` (web_app.py lines 28-101):
status code, error body, summary body, and whether the four charts were
generated. -/
structure AnalyzeResult where
  status : Nat
  error : Option String
  summary : Option SummaryStats
  chartsRendered : Bool
deriving DecidableEq, Repr

/-- `analyze_stock`: upper-case the requested symbol, reject an empty one,
fetch; on fetch failure answer 400 `Failed to fetch data for {symbol}`
with no summary and no charts; re-check for missing/empty data; otherwise
build the summary and render the four charts. -/
def analyzeStock (parse : Rat → Int) (symbol? : Option String)
    (startD endD : String) (provider : Except String (Option Frame)) : AnalyzeResult :=
  let symbol := upperName (symbol?.getD "")
  if symbol = "" then ⟨400, some "Stock symbol is required", none, false⟩
  else
    let fr := fetchData parse symbol startD endD provider
    if fr.ok = false then ⟨400, some ("Failed to fetch data for " ++ symbol), none, false⟩
    else
      match fr.data with
      | none => ⟨400, some "No data available", none, false⟩
      | some d =>
        if d.isEmpty then ⟨400, some "No data available", none, false⟩
        else ⟨200, none, some (summaryOfFrame symbol d), true⟩

/-! Helper lemmas shared by the claim theorems. -/

/-- An upper-cased string is empty only if the input was. -/
theorem upperName_ne_empty {s : String} (h : s ≠ "") : upperName s ≠ "" := by
  intro he
  apply h
  have : (s.data.map upperChar) = [] := congrArg String.data he
  have hd : s.data = [] := List.map_eq_nil_iff.mp this
  cases s
  simp_all

/-- C2 counterexample: with an explicit end date (day 100) and today = day
1000, the defaulted start date is `today - 180 = 820`, not
`endDate - 180 = -80`, so the start default is not 180 days before the end
date. -/
theorem initVisualizer_start_default_counterexample :
    (initVisualizer "vnm" none (some 100) 1000).startDate ≠
      (initVisualizer "vnm" none (some 100) 1000).endDate - 180 := by
  decide

/-- C2 (amended): the symbol is upper-cased regardless of input case; an
omitted end date defaults to today; an omitted start date defaults to 180
days before *today* (hence 180 days before the end date exactly when the
end date is also defaulted). -/
theorem initVisualizer_defaults (symbol : String) (s? e? : Option Int) (today : Int) :
    (initVisualizer symbol s? e? today).symbol = upperName symbol ∧
    (initVisualizer symbol s? none today).endDate = today ∧
    (initVisualizer symbol none e? today).startDate = today - 180 ∧
    (initVisualizer symbol none none today).startDate =
      (initVisualizer symbol none none today).endDate - 180 :=
  ⟨rfl, rfl, rfl, rfl⟩

/-- C3: for a non-empty close series with non-zero first close, the
summary's percentage price change is `100 * (last - first) / first`
(exactly, over the rationals) and the absolute change is `last - first`. -/
theorem priceChange_spec (closes : List Rat) (h : closes ≠ [])
    (h0 : closes.head h ≠ 0) :
    priceChangePct closes = 100 * (closes.getLast h - closes.head h) / closes.head h ∧
    priceChange closes = closes.getLast h - closes.head h := by
  have hh : closes.headD 0 = closes.head h := by
    cases closes with
    | nil => exact absurd rfl h
    | cons a l => rfl
  have hl : closes.getLastD 0 = closes.getLast h := by
    rw [List.getLastD_eq_getLast?, List.getLast?_eq_getLast closes h]
    rfl
  constructor
  · unfold priceChangePct priceChange
    rw [hh, hl]
    field_simp
    ring
  · unfold priceChange
    rw [hh, hl]

/-- Witness for C3 at the spec's scenario series. -/
theorem priceChange_spec_witness :
    priceChangePct [100, 102, 99, 101, 105] = 100 * ((105 : Rat) - 100) / 100 ∧
    priceChange [100, 102, 99, 101, 105] = (105 : Rat) - 100 :=
  priceChange_spec [100, 102, 99, 101, 105] (by decide) (by decide)

/-- C6: a moving-average window strictly larger than the (non-empty)
series length yields an all-undefined overlay of the same length; the
computation is a total function, so no error is raised. -/
theorem rollingMean_window_gt_length (w : Nat) (xs : List Rat)
    (hne : xs ≠ []) (hw : xs.length < w) :
    rollingMean w xs = List.replicate xs.length none := by
  unfold rollingMean
  refine List.eq_replicate_iff.mpr ⟨by simp, ?_⟩
  intro b hb
  simp only [List.mem_map, List.mem_range] at hb
  obtain ⟨i, hi, rfl⟩ := hb
  rw [if_neg]
  omega

/-- Witness for C6: the spec's scenario, length 3 and window 5. -/
theorem rollingMean_window_gt_length_witness :
    rollingMean 5 [1, 2, 3] = List.replicate 3 none :=
  rollingMean_window_gt_length 5 [1, 2, 3] (by decide) (by decide)

/-- C10: every chart/summary operation invoked while the stored data is
`None` or an empty frame prints `No data available. Please fetch data
first.` and returns at once: nothing is raised, no file is written, and no
figure is shown. -/
theorem noData_guard (data : Option Frame) (symbol startD endD : String)
    (maPeriods : List Nat) (savePath : Option String)
    (h : ∀ d ∈ data, d.isEmpty = true) :
    plotCandlestickChart data savePath = noDataResult ∧
    plotPriceAndMovingAverages data maPeriods savePath = noDataResult ∧
    plotVolumeAnalysis data savePath = noDataResult ∧
    plotDailyReturns data savePath = noDataResult ∧
    printSummary symbol startD endD data = noDataResult := by
  cases data with
  | none => exact ⟨rfl, rfl, rfl, rfl, rfl⟩
  | some d =>
    have hd : d.isEmpty = true := h d (by simp)
    unfold plotCandlestickChart plotPriceAndMovingAverages plotVolumeAnalysis
      plotDailyReturns printSummary
    simp [hd]

/-- Witness for C10 with no stored data. -/
theorem noData_guard_witness :
    plotCandlestickChart none none = noDataResult ∧
    plotPriceAndMovingAverages none [20, 50, 100] none = noDataResult ∧
    plotVolumeAnalysis none none = noDataResult ∧
    plotDailyReturns none none = noDataResult ∧
    printSummary "VNM" "2024-01-01" "2024-06-30" none = noDataResult :=
  noData_guard none "VNM" "2024-01-01" "2024-06-30" [20, 50, 100] none
    (by intro d hd; cases hd)

/-- C8 counterexample: when the upstream call raises (here `network
timeout`), `fetch_data` raises nothing to its caller — it prints the error
and returns `False` — so the failure is not propagated with its cause. -/
theorem fetch_error_counterexample :
    (fetchData (fun q => q.num) "VNM" "2024-01-01" "2024-06-30"
        (Except.error "network timeout")).raised = none ∧
    "Error fetching data: network timeout" ∈
      (fetchData (fun q => q.num) "VNM" "2024-01-01" "2024-06-30"
        (Except.error "network timeout")).printed ∧
    (fetchData (fun q => q.num) "VNM" "2024-01-01" "2024-06-30"
        (Except.error "network timeout")).ok = false := by
  refine ⟨rfl, ?_, rfl⟩
  simp [fetchData]

/-- C8 (amended): every upstream retrieval error is caught inside
`fetch_data`, which prints `Error fetching data: {e}` and returns `False`
(the same signal as no-data); no exception propagates to the caller. -/
theorem fetchData_error_spec (parse : Rat → Int) (symbol startD endD err : String) :
    fetchData parse symbol startD endD (Except.error err) =
      ⟨false, none,
       ["Fetching data for " ++ symbol ++ " from " ++ startD ++ " to " ++ endD ++ "...",
        "Error fetching data: " ++ err], none⟩ := rfl

/-- C1 counterexample: for symbol `XYZ`, both on a null upstream result
and on an empty raw upstream frame (columns but no rows), the fetch path
raises no `NoDataAvailable` (or any) failure — it returns `False` — and
its failure line is the constant `No data retrieved`, which does not name
`XYZ`. -/
theorem fetch_noData_counterexample :
    (fetchData (fun q => q.num) "XYZ" "2024-01-01" "2024-06-30"
        (Except.ok none)).raised = none ∧
    (fetchData (fun q => q.num) "XYZ" "2024-01-01" "2024-06-30"
        (Except.ok none)).printed.getLast? = some "No data retrieved" ∧
    (fetchData (fun q => q.num) "XYZ" "2024-01-01" "2024-06-30"
        (Except.ok (some ⟨[("time", []), ("open", []), ("close", [])], []⟩))).raised = none ∧
    (fetchData (fun q => q.num) "XYZ" "2024-01-01" "2024-06-30"
        (Except.ok (some ⟨[("time", []), ("open", []), ("close", [])], []⟩))).ok = false ∧
    (fetchData (fun q => q.num) "XYZ" "2024-01-01" "2024-06-30"
        (Except.ok (some ⟨[("time", []), ("open", []), ("close", [])],
          []⟩))).printed.getLast? = some "No data retrieved" := by
  exact ⟨rfl, rfl, by decide, by decide, by decide⟩

/-- C1 (amended): on an empty or null upstream result — the provider
yields `None`, or a raw frame that is empty once normalized — `fetch_data`
prints `No data retrieved` and returns `False` without raising; the web
caller then answers 400 with an error naming the symbol
(`Failed to fetch data for {SYMBOL}`) and computes no summary statistics
and renders no charts. -/
theorem analyze_noData_spec (parse : Rat → Int) (symbol startD endD : String)
    (provider : Except String (Option Frame)) (h : symbol ≠ "")
    (hempty : provider = Except.ok none ∨
      ∃ raw, provider = Except.ok (some raw) ∧ (normalize parse raw).isEmpty = true) :
    (fetchData parse (upperName symbol) startD endD provider).ok = false ∧
    (fetchData parse (upperName symbol) startD endD provider).raised = none ∧
    (fetchData parse (upperName symbol) startD endD provider).printed.getLast? =
      some "No data retrieved" ∧
    analyzeStock parse (some symbol) startD endD provider =
      ⟨400, some ("Failed to fetch data for " ++ upperName symbol), none, false⟩ := by
  have hfetch : (fetchData parse (upperName symbol) startD endD provider).ok = false ∧
      (fetchData parse (upperName symbol) startD endD provider).raised = none ∧
      (fetchData parse (upperName symbol) startD endD provider).printed.getLast? =
        some "No data retrieved" := by
    rcases hempty with rfl | ⟨raw, rfl, hraw⟩
    · exact ⟨rfl, rfl, rfl⟩
    · unfold fetchData
      simp [hraw]
  refine ⟨hfetch.1, hfetch.2.1, hfetch.2.2, ?_⟩
  unfold analyzeStock
  simp only [Option.getD_some]
  rw [if_neg (upperName_ne_empty h)]
  rw [if_pos hfetch.1]

/-- Witness for C1 at symbol `XYZ` with the spec scenario's empty raw
upstream frame (OHLCV columns present, no rows). -/
theorem analyze_noData_spec_witness :
    (fetchData (fun q => q.num) (upperName "XYZ") "2024-01-01" "2024-06-30"
        (Except.ok (some ⟨[("time", []), ("open", []), ("close", [])], []⟩))).ok = false ∧
    (fetchData (fun q => q.num) (upperName "XYZ") "2024-01-01" "2024-06-30"
        (Except.ok (some ⟨[("time", []), ("open", []), ("close", [])], []⟩))).raised = none ∧
    (fetchData (fun q => q.num) (upperName "XYZ") "2024-01-01" "2024-06-30"
        (Except.ok (some ⟨[("time", []), ("open", []), ("close", [])],
          []⟩))).printed.getLast? = some "No data retrieved" ∧
    analyzeStock (fun q => q.num) (some "XYZ") "2024-01-01" "2024-06-30"
        (Except.ok (some ⟨[("time", []), ("open", []), ("close", [])], []⟩)) =
      ⟨400, some ("Failed to fetch data for " ++ upperName "XYZ"), none, false⟩ :=
  analyze_noData_spec (fun q => q.num) "XYZ" "2024-01-01" "2024-06-30"
    (Except.ok (some ⟨[("time", []), ("open", []), ("close", [])], []⟩)) (by decide)
    (Or.inr ⟨⟨[("time", []), ("open", []), ("close", [])], []⟩, rfl, by decide⟩)

/-- Entry i of the rolling mean, for i in range: the guarded windowed
mean over the first `i + 1` entries only. -/
theorem rollingMean_get? (w : Nat) (xs : List Rat) (i : Nat) (hi : i < xs.length) :
    (rollingMean w xs).get? i =
      some (if w ≤ i + 1
        then some ((((xs.take (i + 1)).drop (i + 1 - w)).sum) / (w : Rat))
        else none) := by
  unfold rollingMean
  rw [List.get?_map, List.get?_range hi]
  rfl

/-- C4: the daily-return series is undefined at position 0, and at every
later position i+1 equals `(close[i+1] - close[i]) / close[i] * 100`. -/
theorem dailyReturnsPct_spec (closes : List Rat) (i : Nat)
    (hi : i + 1 < closes.length) (hnz : closes[i] ≠ 0) :
    (dailyReturnsPct closes).get? 0 = some none ∧
    (dailyReturnsPct closes).get? (i + 1) =
      some (some ((closes[i + 1] - closes[i]) / closes[i] * 100)) := by
  cases closes with
  | nil => simp at hi
  | cons x rest =>
    constructor
    · rfl
    · have h1 : (x :: rest).get? i = some (x :: rest)[i] := List.get?_eq_get _
      have h2 : rest.get? i = some (x :: rest)[i + 1] := by
        rw [← List.get?_cons_succ (a := x)]
        exact List.get?_eq_get _
      unfold dailyReturnsPct pctChange
      rw [List.get?_map, List.get?_cons_succ, List.get?_zipWith', h1, h2]
      simp only [Option.map_some', Option.some_bind]
      rw [sub_div, div_self hnz]

/-- Witness for C4 at the series [100, 102, 99], position 1. -/
theorem dailyReturnsPct_spec_witness :
    (dailyReturnsPct [100, 102, 99]).get? 0 = some none ∧
    (dailyReturnsPct [100, 102, 99]).get? (0 + 1) =
      some (some (((102 : Rat) - 100) / 100 * 100)) :=
  dailyReturnsPct_spec [100, 102, 99] 0 (by decide) (by decide)

/-- C5: for a valid window (w ≥ 1) and position i in range, the
moving-average overlay at i is the arithmetic mean of the w entries at
positions i-w+1 .. i when i ≥ w-1, is undefined when i < w-1, and depends
only on the entries at positions ≤ i (no look-ahead): any series agreeing
on the first i+1 entries gives the same value at i. -/
theorem rollingMean_spec (w : Nat) (xs : List Rat) (i : Nat)
    (hw : 1 ≤ w) (hi : i < xs.length) :
    (w ≤ i + 1 →
      (rollingMean w xs).get? i =
        some (some (((xs.drop (i + 1 - w)).take w).sum / (w : Rat)))) ∧
    (i + 1 < w → (rollingMean w xs).get? i = some none) ∧
    (∀ ys : List Rat, i < ys.length → xs.take (i + 1) = ys.take (i + 1) →
      (rollingMean w xs).get? i = (rollingMean w ys).get? i) := by
  refine ⟨?_, ?_, ?_⟩
  · intro hwin
    rw [rollingMean_get? w xs i hi, if_pos hwin]
    have hcomm : (xs.take (i + 1)).drop (i + 1 - w) =
        (xs.drop (i + 1 - w)).take w := by
      rw [List.drop_take]
      congr 1
      omega
    rw [hcomm]
  · intro hlt
    rw [rollingMean_get? w xs i hi, if_neg (by omega)]
  · intro ys hiy htake
    rw [rollingMean_get? w xs i hi, rollingMean_get? w ys i hiy, htake]

/-- Witness for C5 at window 2, series [1, 2, 3], position 1. -/
theorem rollingMean_spec_witness :
    (2 ≤ 1 + 1 →
      (rollingMean 2 [1, 2, 3]).get? 1 =
        some (some (((([1, 2, 3] : List Rat).drop (1 + 1 - 2)).take 2).sum / (2 : Rat)))) ∧
    (1 + 1 < 2 → (rollingMean 2 [1, 2, 3]).get? 1 = some none) ∧
    (∀ ys : List Rat, 1 < ys.length →
      ([1, 2, 3] : List Rat).take (1 + 1) = ys.take (1 + 1) →
      (rollingMean 2 [1, 2, 3]).get? 1 = (rollingMean 2 ys).get? 1) :=
  rollingMean_spec 2 [1, 2, 3] 1 (by decide) (by decide)

/-- Filtering `id` over a zipWith that wraps every value in `some`
recovers the unwrapped zipWith. -/
theorem filterMap_id_zipWith_some (f : Rat → Rat → Rat) :
    ∀ (as bs : List Rat),
      (List.zipWith (fun a b => some (f a b)) as bs).filterMap id = List.zipWith f as bs
  | [], _ => by simp
  | _ :: _, [] => by simp
  | a :: as, b :: bs => by
    simp only [List.zipWith_cons_cons, List.filterMap_cons, id]
    rw [filterMap_id_zipWith_some f as bs]

/-- Over a series of non-zero closes, the pandas ratio form
`cur/prev - 1` of the daily return agrees with the difference form
`(cur - prev)/prev`. -/
theorem zipWith_ratio_eq : ∀ (xs : List Rat), (∀ x ∈ xs, x ≠ 0) →
    List.zipWith (fun prev cur => cur / prev - 1) xs xs.tail =
      List.zipWith (fun prev cur => (cur - prev) / prev) xs xs.tail
  | [], _ => rfl
  | [_], _ => rfl
  | a :: b :: rest, h => by
    have ha : a ≠ 0 := h a (by simp)
    have hrec := zipWith_ratio_eq (b :: rest)
      (fun x hx => h x (List.mem_cons_of_mem a hx))
    simp only [List.tail_cons] at hrec ⊢
    simp only [List.zipWith_cons_cons]
    rw [sub_div, div_self ha, hrec]

/-- C7: over a series of at least three non-zero closes, the square of the
code's volatility (`pct_change().std() * 100`, pandas sample convention
`ddof = 1` with NaN skipped) equals the square of the spec's value: the
sample standard deviation of the day-over-day return-fraction series times
100, with no annualization factor. Squares determine the two non-negative
quantities uniquely. -/
theorem volatility_spec (closes : List Rat) (hpos : ∀ c ∈ closes, c ≠ 0)
    (hlen : 3 ≤ closes.length) :
    volatilitySq closes = some (specVolatilitySq closes) := by
  have hfr : returnFractions closes = specReturnFractions closes := by
    unfold returnFractions specReturnFractions
    cases closes with
    | nil => rfl
    | cons x rest =>
      show (pctChange (x :: rest)).filterMap id = _
      unfold pctChange
      simp only [List.filterMap_cons, id]
      rw [filterMap_id_zipWith_some (fun prev cur => cur / prev - 1) (x :: rest) rest]
      have := zipWith_ratio_eq (x :: rest) hpos
      simpa using this
  have hlen2 : 2 ≤ (returnFractions closes).length := by
    rw [hfr]
    unfold specReturnFractions
    rw [List.length_zipWith, List.length_tail]
    omega
  unfold volatilitySq specVolatilitySq
  rw [if_pos hlen2, hfr]

/-- Witness for C7 at the series [100, 102, 99]. -/
theorem volatility_spec_witness :
    volatilitySq [100, 102, 99] = some (specVolatilitySq [100, 102, 99]) :=
  volatility_spec [100, 102, 99] (by decide) (by decide)

/-- The code of a character built from a valid code point is that code
point. -/
theorem toNat_ofNat_of_valid {n : Nat} (hv : n.isValidChar) :
    (Char.ofNat n).toNat = n := by
  unfold Char.ofNat
  rw [dif_pos hv]
  rfl

/-- ASCII lower-casing of one character is idempotent. -/
theorem lowerChar_idem (c : Char) : lowerChar (lowerChar c) = lowerChar c := by
  unfold lowerChar
  by_cases h : 65 ≤ c.toNat ∧ c.toNat ≤ 90
  · rw [if_pos h]
    have hval : (Char.ofNat (c.toNat + 32)).toNat = c.toNat + 32 :=
      toNat_ofNat_of_valid (Or.inl (by omega))
    rw [if_neg (by rw [hval]; omega)]
  · rw [if_neg h, if_neg h]

/-- ASCII lower-casing of a string is idempotent. -/
theorem lowerName_idem (s : String) : lowerName (lowerName s) = lowerName s := by
  unfold lowerName
  refine congrArg String.mk ?_
  show List.map lowerChar (List.map lowerChar s.data) = List.map lowerChar s.data
  rw [List.map_map]
  exact List.map_congr_left (fun x _ => lowerChar_idem x)

/-- Every column of a normalized frame has a lower-case name that is not
`time`. -/
theorem normalize_cols_lowered (parse : Rat → Int) (f : Frame) :
    ∀ c ∈ (normalize parse f).cols, lowerName c.1 = c.1 ∧ c.1 ≠ "time" := by
  intro c hc
  unfold normalize at hc
  split at hc
  case h_1 timeCol heq =>
    rw [List.mem_filter] at hc
    obtain ⟨hcmem, hcne⟩ := hc
    obtain ⟨a, _, rfl⟩ := List.mem_map.mp hcmem
    refine ⟨lowerName_idem a.1, ?_⟩
    simpa using hcne
  case h_2 heq =>
    obtain ⟨a, _, rfl⟩ := List.mem_map.mp hc
    refine ⟨lowerName_idem a.1, ?_⟩
    have := List.find?_eq_none.mp heq _ hc
    simpa using this

/-- C9: the normalization step of `fetch_data` is idempotent — applying it
to an already-normalized frame changes nothing, for every time-parsing
function. -/
theorem normalize_idem (parse : Rat → Int) (f : Frame) :
    normalize parse (normalize parse f) = normalize parse f := by
  have hcols := normalize_cols_lowered parse f
  obtain ⟨g, hg⟩ : ∃ g, normalize parse f = g := ⟨_, rfl⟩
  rw [hg] at hcols ⊢
  have hmap : g.cols.map (fun c => (lowerName c.1, c.2)) = g.cols := by
    have h : ∀ c ∈ g.cols, (fun c => (lowerName c.1, c.2)) c = id c := by
      intro c hc
      simp only [id]
      rw [(hcols c hc).1]
    rw [List.map_congr_left h]
    exact List.map_id _
  have hfind : g.cols.find? (fun c => c.1 = "time") = none := by
    refine List.find?_eq_none.mpr ?_
    intro c hc
    simpa using (hcols c hc).2
  unfold normalize
  simp only [hmap, hfind]

end StockOpen
